import Mathlib

/-!
Verification development for the uxarray computational core: convention
normalizers, canonical grid topology, quadrature rule tables, the face-area
quadrature engine and the face-area cache.  The repository snapshot ships only
the documentation notebooks, so the definitions below are shallow embeddings
modelled from the specification (and the variable derivations documented in
the notebooks), as noted in each doc comment.
-/

namespace UxVerify

/-- Modelled from the spec: the reserved fill sentinel, "a single reserved
integer value distinguishable from any valid node index" used to right-pad
variable-degree connectivity rows (the notebooks call it `INT_FILL_VALUE`).
The value is the minimum of a 64-bit signed integer, which can never be a
valid zero-based node index. -/
def INT_FILL_VALUE : Int := -9223372036854775808

/-! ## Convention normalizer: index normalization (§4.1) -/

/-- Modelled from the spec: first normalization pass on a 1-based source
connectivity row — "convention-specific missing markers (literal zero used as
padding rather than a real node reference) are rewritten to the fill
sentinel". -/
def _replace_padding (row : List Int) : List Int :=
  row.map (fun e => if e == 0 then INT_FILL_VALUE else e)

/-- Modelled from the spec: second normalization pass — "1-based indices are
shifted to 0-based"; fill-sentinel entries are left untouched. -/
def _to_zero_index (row : List Int) : List Int :=
  row.map (fun e => if e == INT_FILL_VALUE then e else e - 1)

/-- Modelled from the spec: full index normalization of one connectivity row
of a 1-based convention with zero-as-padding (e.g., MPAS `verticesOnCell`):
padding is replaced with the fill sentinel, then indices become 0-based. -/
def normalize_connectivity (row : List Int) : List Int :=
  _to_zero_index (_replace_padding row)

/-! ## Quadrature rule tables (§4.3) -/

/-- The two supported quadrature rule families. -/
inductive QuadFamily where
  | triangular
  | gaussian
  deriving DecidableEq, Repr

/-- Modelled from the spec: a static quadrature table for one supported
(family, order) pair.  The spec fixes the supported catalogue and that each
pair maps deterministically to a fixed table of barycentric sample points and
weights, but does not reproduce the numeric tables; the model records the
table's identity by its sample-point count. -/
structure QuadRule where
  nPoints : Nat
  deriving DecidableEq, Repr

/-- Modelled from the spec: errors of the engine stage — "unsupported
(rule, order) pair, or coordinate-system/sphere-flag mismatch". -/
inductive ConfigError where
  | unsupportedQuadrature
  deriving DecidableEq, Repr

/-- Modelled from the spec: the triangular family lookup, supporting the
discrete orders {1, 4, 8, 10, 12} only, each with a fixed number of sample
points on the reference triangle. -/
def get_tri_quadratureDG (order : Nat) : Option QuadRule :=
  if order = 1 then some ⟨1⟩
  else if order = 4 then some ⟨6⟩
  else if order = 8 then some ⟨16⟩
  else if order = 10 then some ⟨25⟩
  else if order = 12 then some ⟨33⟩
  else none

/-- Modelled from the spec: the Gaussian family lookup, supporting orders 1
through 10 inclusive; a higher order uses more sample points. -/
def get_gauss_quadratureDG (order : Nat) : Option QuadRule :=
  if order = 1 then some ⟨1⟩
  else if order = 2 then some ⟨2⟩
  else if order = 3 then some ⟨3⟩
  else if order = 4 then some ⟨4⟩
  else if order = 5 then some ⟨5⟩
  else if order = 6 then some ⟨6⟩
  else if order = 7 then some ⟨7⟩
  else if order = 8 then some ⟨8⟩
  else if order = 9 then some ⟨9⟩
  else if order = 10 then some ⟨10⟩
  else none

/-- Modelled from the spec: quadrature rule lookup.  It is a static,
deterministic table; it fails with a `ConfigError` exactly when an unsupported
(family, order) pair is requested. -/
def get_quadrature (family : QuadFamily) (order : Nat) :
    Except ConfigError QuadRule :=
  match family with
  | QuadFamily.triangular =>
    match get_tri_quadratureDG order with
    | some r => Except.ok r
    | none => Except.error ConfigError.unsupportedQuadrature
  | QuadFamily.gaussian =>
    match get_gauss_quadratureDG order with
    | some r => Except.ok r
    | none => Except.error ConfigError.unsupportedQuadrature

/-- The supported catalogue as the spec words it: triangular orders
{1, 4, 8, 10, 12}; Gaussian orders 1 through 10 inclusive. -/
def supported_spec (family : QuadFamily) (order : Nat) : Prop :=
  (family = QuadFamily.triangular ∧ order ∈ ([1, 4, 8, 10, 12] : List Nat)) ∨
  (family = QuadFamily.gaussian ∧ 1 ≤ order ∧ order ≤ 10)

instance (family : QuadFamily) (order : Nat) :
    Decidable (supported_spec family order) := by
  unfold supported_spec
  infer_instance

/-! ## Geometry primitives for the area engine (§4.4) -/

/-- A 3-D Cartesian point (the engine consumes `x`, `y`, `z` coordinate
arrays, as in `calculate_face_area(cart_x, cart_y, cart_z, "cartesian")`). -/
@[ext]
structure P3 where
  x : ℝ
  y : ℝ
  z : ℝ

/-- The zero vector / origin. -/
def P3.zero : P3 := ⟨0, 0, 0⟩

/-- Componentwise vector difference `a - b`. -/
def vsub (a b : P3) : P3 := ⟨a.x - b.x, a.y - b.y, a.z - b.z⟩

/-- Scalar multiple of a vector. -/
def smul (s : ℝ) (v : P3) : P3 := ⟨s * v.x, s * v.y, s * v.z⟩

/-- The 3-D cross product. -/
def cross (u v : P3) : P3 :=
  ⟨u.y * v.z - u.z * v.y, u.z * v.x - u.x * v.z, u.x * v.y - u.y * v.x⟩

/-- The Euclidean dot product. -/
def dot (u v : P3) : ℝ := u.x * v.x + u.y * v.y + u.z * v.z

/-- The Euclidean norm. -/
noncomputable def norm3 (u : P3) : ℝ := Real.sqrt (u.x ^ 2 + u.y ^ 2 + u.z ^ 2)

/-- Modelled from the spec: the Cartesian-mode per-triangle contribution —
"evaluate the planar triangle's area directly as (1/2)·|cross product of two
edge vectors|, scaled by the rule's weight sum" (the weights sum to 1). -/
noncomputable def triangle_area (a b c : P3) : ℝ :=
  (1 / 2) * norm3 (cross (vsub b a) (vsub c a))

/-- Modelled from the spec: the spherical-mode per-triangle contribution, the
quadrature approximation of the great-circle triangle's area on the unit
sphere.  The spec does not reproduce the numeric point/weight tables, so the
model uses the exact spherical-triangle solid angle (the value the quadrature
approximates) in the Van Oosterom–Strackee form. -/
noncomputable def spherical_triangle_area (a b c : P3) : ℝ :=
  2 * Real.arctan (dot a (cross b c) / (1 + dot a b + dot b c + dot a c))

/-! ## Grid topology (§4.2) -/

/-- Modelled from the spec: the canonical in-memory topology — node
coordinates, sentinel-padded face-to-node connectivity, and the declared
maximum face degree. -/
structure Topology where
  nodes : List P3
  face_nodes : List (List Int)
  nMaxFaceNodes : Nat

/-- Modelled from the spec: construction-stage invariant violations —
"out-of-range index, degenerate face with <3 vertices, inconsistent
max-degree". -/
inductive TopologyError where
  | indexOutOfRange
  | degenerateFace
  | inconsistentMaxDegree
  deriving DecidableEq, Repr

/-- The per-face vertex count: "count of non-sentinel entries" of the face's
connectivity row. -/
def n_valid (row : List Int) : Nat :=
  (row.filter (fun e => e != INT_FILL_VALUE)).length

/-- The actual widest connectivity row: maximum non-sentinel vertex count
over all faces. -/
def max_face_degree (fn : List (List Int)) : Nat :=
  fn.foldr (fun row m => max (n_valid row) m) 0

/-- Construction check: every non-sentinel face index is in node-index
range. -/
def indices_in_range (nNodes : Nat) (fn : List (List Int)) : Bool :=
  fn.all (fun row => row.all (fun e =>
    e == INT_FILL_VALUE || (decide (0 ≤ e) && decide (e < (nNodes : Int)))))

/-- Construction check: every face has at least 3 non-sentinel vertices. -/
def faces_nondegenerate (fn : List (List Int)) : Bool :=
  fn.all (fun row => decide (3 ≤ n_valid row))

/-- Modelled from the spec: topology construction with invariant checks.  It
"fails with a TopologyError if: any non-sentinel face index is out of
node-index range; a face has fewer than 3 non-sentinel vertices; the maximum
face degree does not match the actual widest row"; on success the canonical
arrays are stored unchanged, and on failure no partial topology is
returned. -/
def build_topology (nodes : List P3) (fn : List (List Int)) (nMax : Nat) :
    Except TopologyError Topology :=
  if indices_in_range nodes.length fn then
    if faces_nondegenerate fn then
      if max_face_degree fn = nMax then
        Except.ok ⟨nodes, fn, nMax⟩
      else
        Except.error TopologyError.inconsistentMaxDegree
    else
      Except.error TopologyError.degenerateFace
  else
    Except.error TopologyError.indexOutOfRange

/-- The topology invariant violations, written as the spec words them: an
out-of-range non-sentinel index, a face with fewer than 3 non-sentinel
vertices, or a declared maximum face degree that differs from the actual
widest row. -/
def topology_invariant_violation (nNodes : Nat) (fn : List (List Int))
    (nMax : Nat) : Prop :=
  (∃ row ∈ fn, ∃ e ∈ row, e ≠ INT_FILL_VALUE ∧ (e < 0 ∨ (nNodes : Int) ≤ e)) ∨
  (∃ row ∈ fn, n_valid row < 3) ∨
  max_face_degree fn ≠ nMax

instance (nNodes : Nat) (fn : List (List Int)) (nMax : Nat) :
    Decidable (topology_invariant_violation nNodes fn nMax) := by
  unfold topology_invariant_violation
  infer_instance

/-! ## Face-area quadrature engine (§4.4) -/

/-- An engine configuration: rule family, order, and the coordinate-system
flag (`latlon = true` selects spherical mode, `false` Cartesian mode). -/
structure AreaConfig where
  rule : QuadFamily
  order : Nat
  latlon : Bool
  deriving DecidableEq, Repr

/-- Modelled from the spec: the per-triangle integration result under a
configuration — the Cartesian mode reduces to the exact planar formula (the
rule's weights sum to 1), the spherical mode to the quadrature of the
spherical Jacobian, modelled by the exact spherical-triangle area. -/
noncomputable def triangle_contribution (cfg : AreaConfig) (a b c : P3) : ℝ :=
  if cfg.latlon then spherical_triangle_area a b c else triangle_area a b c

/-- Modelled from the spec: the fan-triangulation loop — with the pivot `p0`
fixed, one triangle per consecutive pair of the remaining vertices, summing
the per-triangle contributions. -/
noncomputable def fan_sum (tri : P3 → P3 → P3 → ℝ) (p0 : P3) :
    List P3 → ℝ
  | a :: b :: tl => tri p0 a b + fan_sum tri p0 (b :: tl)
  | _ => 0

/-- Modelled from the spec: the area of one face from the list of its valid
vertex positions — fan triangulation from the first listed vertex, summing
the per-triangle contributions. -/
noncomputable def calculate_face_area (tri : P3 → P3 → P3 → ℝ)
    (pts : List P3) : ℝ :=
  match pts with
  | p0 :: rest => fan_sum tri p0 rest
  | [] => 0

/-- The positions of one face's non-sentinel vertices, gathered from the
topology's node-coordinate arrays in listed order. -/
def face_points (t : Topology) (f : Nat) : List P3 :=
  ((t.face_nodes.getD f []).filter (fun e => e != INT_FILL_VALUE)).map
    (fun e => t.nodes.getD e.toNat P3.zero)

/-- Modelled from the spec: the engine — a pure map over faces, computing
every face's area by fan triangulation under the chosen configuration. -/
noncomputable def compute_face_areas (t : Topology) (cfg : AreaConfig) :
    List ℝ :=
  (List.range t.face_nodes.length).map
    (fun f => calculate_face_area (triangle_contribution cfg) (face_points t f))

/-! ## Face-area cache (§4.5) and grid-level operations -/

/-- Lookup of a configuration key in the cache's association list. -/
def cache_lookup (c : List (AreaConfig × List ℝ)) (k : AreaConfig) :
    Option (List ℝ) :=
  match c with
  | [] => none
  | (k', v) :: rest => if k' = k then some v else cache_lookup rest k

/-- A grid: the canonical topology together with its attached face-area
cache, created empty and populated on first request per configuration. -/
structure GridState where
  topology : Topology
  cache : List (AreaConfig × List ℝ)

/-- The observable outcome of one cached face-area request: the per-face
area array, the grid state afterwards, and whether the engine ran (the
computation-count probe of §8). -/
structure AreaResult where
  areas : List ℝ
  state : GridState
  computed : Bool

/-- Modelled from the spec: the cached face-area request.  The configuration
is validated against the rule tables (unsupported pairs fail with a
`ConfigError` and leave the grid untouched); the first request for a
configuration triggers the engine and stores the result; subsequent identical
requests return the stored array without recomputation. -/
noncomputable def face_areas (s : GridState) (cfg : AreaConfig) :
    Except ConfigError AreaResult :=
  match get_quadrature cfg.rule cfg.order with
  | Except.error e => Except.error e
  | Except.ok _ =>
    match cache_lookup s.cache cfg with
    | some a => Except.ok ⟨a, s, false⟩
    | none =>
      Except.ok ⟨compute_face_areas s.topology cfg,
        ⟨s.topology, (cfg, compute_face_areas s.topology cfg) :: s.cache⟩,
        true⟩

/-- A configuration is supported when the rule-table lookup succeeds. -/
def supported (cfg : AreaConfig) : Prop :=
  ∃ r, get_quadrature cfg.rule cfg.order = Except.ok r

/-- Modelled from the spec: the default rule family of
`Grid.calculate_total_face_area`. -/
def default_quadrature_rule : QuadFamily := QuadFamily.triangular

/-- Modelled from the spec: the default order of
`Grid.calculate_total_face_area`. -/
def default_order : Nat := 4

/-- Modelled from the spec: `Grid.calculate_total_face_area` with explicit
quadrature arguments — validate the configuration, run the engine in
spherical mode, and sum the per-face areas. -/
noncomputable def calculate_total_face_area_with (t : Topology)
    (rule : QuadFamily) (order : Nat) : Except ConfigError ℝ :=
  match get_quadrature rule order with
  | Except.error e => Except.error e
  | Except.ok _ => Except.ok (compute_face_areas t ⟨rule, order, true⟩).sum

/-- Modelled from the spec: `Grid.calculate_total_face_area` called with no
quadrature arguments — it uses the default configuration. -/
noncomputable def calculate_total_face_area (t : Topology) :
    Except ConfigError ℝ :=
  calculate_total_face_area_with t default_quadrature_rule default_order

/-! ## Grid construction from vertices (`open_grid`) -/

/-- A grid constructed from user-supplied face vertices, carrying the
coordinate-system flag (`islatlon = true` means spherical latitude/longitude,
`false` means Cartesian). -/
structure VertsGrid where
  verts : List (List P3)
  islatlon : Bool

/-- Modelled from the spec and the notebooks: `ux.open_grid(verts, islatlon)`
— "by default, in uxarray, we assume that the coordinate system is spherical
(lat / lon); if you want to use cartesian coordinates, you must pass through
islatlon = False".  An omitted argument is `none`. -/
def open_grid (verts : List (List P3)) (islatlon : Option Bool) : VertsGrid :=
  { verts := verts, islatlon := islatlon.getD true }

/-- The coordinate system a constructed grid interprets its vertices in. -/
def coords_type (g : VertsGrid) : String :=
  if g.islatlon then "spherical" else "cartesian"

/-! ## MPAS convention normalizer (§4.1, notebook 004) -/

/-- The MPAS source arrays used for coordinates and face connectivity:
per-vertex and per-cell angular coordinates in radians, and the two 1-based
connectivity arrays with zero-as-padding. -/
structure MpasSource where
  lonVertex : List ℝ
  latVertex : List ℝ
  lonCell : List ℝ
  latCell : List ℝ
  verticesOnCell : List (List Int)
  cellsOnVertex : List (List Int)

/-- Unit normalization: "angular coordinates are converted to degrees if the
source used radians". -/
noncomputable def _rad_to_deg (a : ℝ) : ℝ := a * (180 / Real.pi)

/-- The canonical UGRID-style variables a normalizer produces: node
coordinates, face-center coordinates, and face-to-node connectivity. -/
structure GridVars where
  node_x : List ℝ
  node_y : List ℝ
  face_x : List ℝ
  face_y : List ℝ
  face_nodes : List (List Int)

/-- Modelled from the spec and notebook 004: the MPAS normalizer.  With
`use_dual = false` the primal mesh is encoded (node coordinates from
`lonVertex`/`latVertex`, face centers from `lonCell`/`latCell`, faces from
`verticesOnCell`); with `use_dual = true` the roles swap (node coordinates
from `lonCell`/`latCell`, face centers from `lonVertex`/`latVertex`, faces
from `cellsOnVertex`).  Angles are converted from radians to degrees and
connectivity is index-normalized. -/
noncomputable def _mpas_to_ugrid (src : MpasSource) (use_dual : Bool) :
    GridVars :=
  if use_dual then
    { node_x := src.lonCell.map _rad_to_deg
      node_y := src.latCell.map _rad_to_deg
      face_x := src.lonVertex.map _rad_to_deg
      face_y := src.latVertex.map _rad_to_deg
      face_nodes := src.cellsOnVertex.map normalize_connectivity }
  else
    { node_x := src.lonVertex.map _rad_to_deg
      node_y := src.latVertex.map _rad_to_deg
      face_x := src.lonCell.map _rad_to_deg
      face_y := src.latCell.map _rad_to_deg
      face_nodes := src.verticesOnCell.map normalize_connectivity }

/-- A concrete 4-vertex face used to witness the fan-triangulation
theorem. -/
def fan_example_topology : Topology :=
  { nodes := [P3.zero, P3.zero, P3.zero, P3.zero]
    face_nodes := [[0, 1, 2, 3]]
    nMaxFaceNodes := 4 }

/-! ## Helper lemmas -/

theorem getD_map_of_lt {α β : Type} (f : α → β) (l : List α) (n : Nat)
    (h : n < l.length) (d : α) (d' : β) :
    (l.map f).getD n d' = f (l.getD n d) := by
  rw [List.getD_eq_getElem?_getD, List.getElem?_map,
    List.getElem?_eq_getElem h]
  simp [List.getD_eq_getElem?_getD, List.getElem?_eq_getElem h]

theorem normalize_connectivity_entry (row : List Int) (i : Nat)
    (hi : i < row.length) :
    (normalize_connectivity row).length = row.length ∧
    (row.getD i 0 = 0 →
      (normalize_connectivity row).getD i 0 = INT_FILL_VALUE) ∧
    (1 ≤ row.getD i 0 →
      (normalize_connectivity row).getD i 0 = row.getD i 0 - 1) := by
  unfold normalize_connectivity _to_zero_index _replace_padding
  rw [List.map_map]
  refine ⟨by simp, ?_, ?_⟩
  · intro h0
    rw [getD_map_of_lt _ row i hi 0, Function.comp_apply, h0]
    norm_num
  · intro h1
    rw [getD_map_of_lt _ row i hi 0, Function.comp_apply]
    have hne0 : (row.getD i 0 == 0) = false := by
      simp only [beq_eq_false_iff_ne, ne_eq]
      omega
    rw [hne0]
    simp only [Bool.false_eq_true, if_false]
    have hnefill : (row.getD i 0 == INT_FILL_VALUE) = false := by
      simp only [beq_eq_false_iff_ne, ne_eq, INT_FILL_VALUE]
      omega
    rw [hnefill]
    simp

/-! ## Claim theorems -/

/-- C2: for a source connectivity array using 1-based indices with literal
zero as padding (here MPAS `verticesOnCell` through the primal normalizer),
the normalized output has the same shape, every valid (≥ 1) entry shifted
down by exactly 1, and every original zero entry replaced by the fill
sentinel. -/
theorem normalizer_one_based_zero_padding (src : MpasSource) (r i : Nat)
    (hr : r < src.verticesOnCell.length)
    (hi : i < (src.verticesOnCell.getD r []).length) :
    ((_mpas_to_ugrid src false).face_nodes.length =
      src.verticesOnCell.length) ∧
    (((_mpas_to_ugrid src false).face_nodes.getD r []).length =
      (src.verticesOnCell.getD r []).length) ∧
    ((src.verticesOnCell.getD r []).getD i 0 = 0 →
      ((_mpas_to_ugrid src false).face_nodes.getD r []).getD i 0 =
        INT_FILL_VALUE) ∧
    (1 ≤ (src.verticesOnCell.getD r []).getD i 0 →
      ((_mpas_to_ugrid src false).face_nodes.getD r []).getD i 0 =
        (src.verticesOnCell.getD r []).getD i 0 - 1) := by
  have hgrid : (_mpas_to_ugrid src false).face_nodes =
      src.verticesOnCell.map normalize_connectivity := by
    simp [_mpas_to_ugrid]
  have hrow : (_mpas_to_ugrid src false).face_nodes.getD r [] =
      normalize_connectivity (src.verticesOnCell.getD r []) := by
    rw [hgrid, getD_map_of_lt _ _ r hr []]
  have hmain := normalize_connectivity_entry (src.verticesOnCell.getD r []) i hi
  refine ⟨by rw [hgrid]; simp, ?_, ?_, ?_⟩
  · rw [hrow]; exact hmain.1
  · intro h0; rw [hrow]; exact hmain.2.1 h0
  · intro h1; rw [hrow]; exact hmain.2.2 h1

/-- Witness for C2: a concrete 1-based row `[1, 3, 0, 2]`; entry 0 shifts to
`0`, and the zero-padding entry at position 2 becomes the fill sentinel. -/
theorem normalizer_one_based_zero_padding_witness :
    (0 < ([[(1 : Int), 3, 0, 2]] : List (List Int)).length) ∧
    (2 < (([[(1 : Int), 3, 0, 2]] : List (List Int)).getD 0 []).length) ∧
    ((_mpas_to_ugrid ⟨[], [], [], [], [[1, 3, 0, 2]], []⟩
        false).face_nodes.getD 0 []).getD 2 0 = INT_FILL_VALUE ∧
    ((_mpas_to_ugrid ⟨[], [], [], [], [[1, 3, 0, 2]], []⟩
        false).face_nodes.getD 0 []).getD 0 0 = 0 := by
  refine ⟨by decide, by decide, ?_, ?_⟩
  · exact (normalizer_one_based_zero_padding ⟨[], [], [], [], [[1, 3, 0, 2]], []⟩
      0 2 (by decide) (by decide)).2.2.1 (by decide)
  · have h := (normalizer_one_based_zero_padding
      ⟨[], [], [], [], [[1, 3, 0, 2]], []⟩ 0 0 (by decide) (by decide)).2.2.2
      (by decide)
    simpa using h

theorem get_tri_quadratureDG_isSome (order : Nat) :
    (get_tri_quadratureDG order).isSome = true ↔
      order ∈ ([1, 4, 8, 10, 12] : List Nat) := by
  unfold get_tri_quadratureDG
  split_ifs <;> simp_all

theorem get_gauss_quadratureDG_isSome (order : Nat) :
    (get_gauss_quadratureDG order).isSome = true ↔ 1 ≤ order ∧ order ≤ 10 := by
  unfold get_gauss_quadratureDG
  split_ifs <;> simp_all
  omega

theorem get_quadrature_ok_iff (family : QuadFamily) (order : Nat) :
    (∃ r, get_quadrature family order = Except.ok r) ↔
      supported_spec family order := by
  cases family with
  | triangular =>
    have h := get_tri_quadratureDG_isSome order
    unfold get_quadrature
    cases htab : get_tri_quadratureDG order <;>
      simp [htab, supported_spec] at h ⊢ <;> tauto
  | gaussian =>
    have h := get_gauss_quadratureDG_isSome order
    unfold get_quadrature
    cases htab : get_gauss_quadratureDG order <;>
      simp [htab, supported_spec] at h ⊢ <;> tauto

/-- C4: the quadrature lookup succeeds exactly for the triangular family at
orders {1, 4, 8, 10, 12} and the Gaussian family at orders 1..10; every other
(family, order) pair fails with a `ConfigError`, a cached face-area request
with such a pair fails with the same `ConfigError`, and the topology remains
valid for further requests: any supported configuration still succeeds. -/
theorem quadrature_lookup_domain (family : QuadFamily) (order : Nat) :
    ((∃ r, get_quadrature family order = Except.ok r) ↔
      supported_spec family order) ∧
    (¬ supported_spec family order →
      get_quadrature family order =
        Except.error ConfigError.unsupportedQuadrature ∧
      ∀ (s : GridState) (latlon : Bool),
        face_areas s ⟨family, order, latlon⟩ =
          Except.error ConfigError.unsupportedQuadrature) ∧
    (∀ (s : GridState) (cfg2 : AreaConfig), supported cfg2 →
      ∃ res, face_areas s cfg2 = Except.ok res) := by
  refine ⟨get_quadrature_ok_iff family order, ?_, ?_⟩
  · intro hns
    have herr : get_quadrature family order =
        Except.error ConfigError.unsupportedQuadrature := by
      cases hq : get_quadrature family order with
      | ok r =>
        exact absurd ((get_quadrature_ok_iff family order).mp ⟨r, hq⟩) hns
      | error e => cases e; rfl
    refine ⟨herr, fun s latlon => ?_⟩
    unfold face_areas
    rw [herr]
  · intro s cfg2 hsup
    obtain ⟨r, hr⟩ := hsup
    unfold face_areas
    rw [hr]
    cases hcl : cache_lookup s.cache cfg2 <;> simp [hcl]

/-- Witness for C4: triangular order 13 is unsupported — the lookup and a
face-area request fail with the `ConfigError` — while triangular order 4 on
the same grid still succeeds. -/
theorem quadrature_lookup_domain_witness :
    ¬ supported_spec QuadFamily.triangular 13 ∧
    get_quadrature QuadFamily.triangular 13 =
      Except.error ConfigError.unsupportedQuadrature ∧
    face_areas ⟨⟨[], [], 0⟩, []⟩ ⟨QuadFamily.triangular, 13, true⟩ =
      Except.error ConfigError.unsupportedQuadrature ∧
    ∃ res, face_areas ⟨⟨[], [], 0⟩, []⟩ ⟨QuadFamily.triangular, 4, true⟩ =
      Except.ok res := by
  have h := quadrature_lookup_domain QuadFamily.triangular 13
  have hns : ¬ supported_spec QuadFamily.triangular 13 := by decide
  refine ⟨hns, (h.2.1 hns).1, (h.2.1 hns).2 ⟨⟨[], [], 0⟩, []⟩ true, ?_⟩
  exact h.2.2 ⟨⟨[], [], 0⟩, []⟩ ⟨QuadFamily.triangular, 4, true⟩ ⟨⟨6⟩, rfl⟩

theorem indices_in_range_iff (n : Nat) (fn : List (List Int)) :
    indices_in_range n fn = true ↔
      ∀ row ∈ fn, ∀ e ∈ row, e = INT_FILL_VALUE ∨ (0 ≤ e ∧ e < (n : Int)) := by
  simp [indices_in_range]

theorem indices_in_range_eq_false (n : Nat) (fn : List (List Int)) :
    indices_in_range n fn = false ↔
      ∃ row ∈ fn, ∃ e ∈ row, e ≠ INT_FILL_VALUE ∧ (e < 0 ∨ (n : Int) ≤ e) := by
  rw [← Bool.not_eq_true, indices_in_range_iff]
  constructor
  · intro h
    push_neg at h
    obtain ⟨row, hrow, e, he, hne, hrange⟩ := h
    refine ⟨row, hrow, e, he, hne, ?_⟩
    rcases lt_or_le e 0 with h0 | h0
    · exact Or.inl h0
    · refine Or.inr ?_
      have := hrange h0
      omega
  · rintro ⟨row, hrow, e, he, hne, hrange⟩ hall
    rcases hall row hrow e he with h | h
    · exact hne h
    · omega

theorem faces_nondegenerate_eq_false (fn : List (List Int)) :
    faces_nondegenerate fn = false ↔ ∃ row ∈ fn, n_valid row < 3 := by
  rw [← Bool.not_eq_true]
  simp [faces_nondegenerate, Nat.lt_iff_add_one_le, Nat.not_le]

/-- C3: topology construction fails with a `TopologyError` exactly when some
non-sentinel face index is out of node-index range, some face has fewer than
3 non-sentinel vertices, or the declared maximum face degree differs from
the actual widest row; on success the topology holds exactly the input
arrays, and on failure no topology is returned at all. -/
theorem topology_construction_atomic (nodes : List P3)
    (fn : List (List Int)) (nMax : Nat) :
    ((∃ err, build_topology nodes fn nMax = Except.error err) ↔
      topology_invariant_violation nodes.length fn nMax) ∧
    (∀ t, build_topology nodes fn nMax = Except.ok t →
      t.nodes = nodes ∧ t.face_nodes = fn ∧ t.nMaxFaceNodes = nMax) := by
  unfold build_topology
  split_ifs with h1 h2 h3
  · constructor
    · constructor
      · rintro ⟨err, herr⟩
        simp at herr
      · intro hv
        exfalso
        rcases hv with hv | hv | hv
        · have hf : indices_in_range nodes.length fn = false :=
            (indices_in_range_eq_false nodes.length fn).mpr hv
          rw [hf] at h1
          exact Bool.false_ne_true h1
        · have hf : faces_nondegenerate fn = false :=
            (faces_nondegenerate_eq_false fn).mpr hv
          rw [hf] at h2
          exact Bool.false_ne_true h2
        · exact hv h3
    · intro t ht
      have heq : Topology.mk nodes fn nMax = t := by
        injection ht
      subst heq
      exact ⟨rfl, rfl, rfl⟩
  · exact ⟨⟨fun _ => Or.inr (Or.inr h3),
      fun _ => ⟨TopologyError.inconsistentMaxDegree, rfl⟩⟩,
      fun t ht => by simp at ht⟩
  · refine ⟨⟨fun _ => ?_, fun _ => ⟨TopologyError.degenerateFace, rfl⟩⟩,
      fun t ht => by simp at ht⟩
    exact Or.inr (Or.inl ((faces_nondegenerate_eq_false fn).mp
      (Bool.eq_false_iff.mpr h2)))
  · refine ⟨⟨fun _ => ?_, fun _ => ⟨TopologyError.indexOutOfRange, rfl⟩⟩,
      fun t ht => by simp at ht⟩
    exact Or.inl ((indices_in_range_eq_false nodes.length fn).mp
      (Bool.eq_false_iff.mpr h1))

/-- Witness for C3: a 2-node mesh with one face naming node index 5 violates
the index-range invariant, and construction indeed returns an error. -/
theorem topology_construction_atomic_witness :
    topology_invariant_violation
      ([P3.zero, P3.zero] : List P3).length [[(0 : Int), 5, 1]] 3 ∧
    ∃ err, build_topology [P3.zero, P3.zero] [[(0 : Int), 5, 1]] 3 =
      Except.error err := by
  refine ⟨by decide, ?_⟩
  exact (topology_construction_atomic [P3.zero, P3.zero]
    [[(0 : Int), 5, 1]] 3).1.mpr (by decide)

/-- C6: on the same MPAS source arrays, the dual-selector topology's node
coordinates equal the primal topology's face-center coordinates, and its
face-center coordinates equal the primal topology's node coordinates. -/
theorem dual_primal_role_swap (src : MpasSource) :
    (_mpas_to_ugrid src true).node_x = (_mpas_to_ugrid src false).face_x ∧
    (_mpas_to_ugrid src true).node_y = (_mpas_to_ugrid src false).face_y ∧
    (_mpas_to_ugrid src true).face_x = (_mpas_to_ugrid src false).node_x ∧
    (_mpas_to_ugrid src true).face_y = (_mpas_to_ugrid src false).node_y := by
  simp [_mpas_to_ugrid]

/-- C7: `calculate_total_face_area` with no quadrature arguments uses the
default configuration — the triangular family at order 4 — and returns the
same total as the explicit (triangular, 4) call on every grid. -/
theorem total_face_area_default_config (t : Topology) :
    calculate_total_face_area t =
      calculate_total_face_area_with t QuadFamily.triangular 4 ∧
    default_quadrature_rule = QuadFamily.triangular ∧
    default_order = 4 ∧
    calculate_total_face_area t =
      Except.ok (compute_face_areas t ⟨QuadFamily.triangular, 4, true⟩).sum :=
  ⟨rfl, rfl, rfl, rfl⟩

/-- C10: a grid built without an `islatlon` argument defaults to the
spherical coordinate system; getting a Cartesian interpretation requires
passing `islatlon = false` explicitly. -/
theorem open_grid_islatlon_default (verts : List (List P3)) :
    coords_type (open_grid verts none) = "spherical" ∧
    coords_type (open_grid verts (some false)) = "cartesian" ∧
    ∀ o : Option Bool,
      coords_type (open_grid verts o) = "cartesian" → o = some false := by
  refine ⟨rfl, rfl, ?_⟩
  intro o h
  match o with
  | none =>
    rw [show coords_type (open_grid verts none) = "spherical" from rfl] at h
    exact absurd h (by decide)
  | some true =>
    rw [show coords_type (open_grid verts (some true)) = "spherical" from
      rfl] at h
    exact absurd h (by decide)
  | some false => rfl

/-- Witness for C10: the explicit `islatlon = false` call yields the
Cartesian interpretation. -/
theorem open_grid_islatlon_default_witness :
    coords_type (open_grid [] (some false)) = "cartesian" ∧
    (some false : Option Bool) = some false :=
  ⟨rfl, (open_grid_islatlon_default []).2.2 (some false) rfl⟩

theorem cache_lookup_cons_self (c : List (AreaConfig × List ℝ))
    (k : AreaConfig) (v : List ℝ) :
    cache_lookup ((k, v) :: c) k = some v := by
  simp [cache_lookup]

theorem cache_lookup_cons_ne (c : List (AreaConfig × List ℝ))
    (k k' : AreaConfig) (v : List ℝ) (h : k' ≠ k) :
    cache_lookup ((k', v) :: c) k = cache_lookup c k := by
  simp [cache_lookup, h]

theorem face_areas_ok_lookup (s : GridState) (cfg : AreaConfig)
    (a : List ℝ) (s1 : GridState) (b : Bool)
    (h : face_areas s cfg = Except.ok ⟨a, s1, b⟩) :
    cache_lookup s1.cache cfg = some a := by
  unfold face_areas at h
  split at h
  · simp at h
  · split at h
    · rename_i a' hcl
      rw [Except.ok.injEq, AreaResult.mk.injEq] at h
      obtain ⟨ha, hs, -⟩ := h
      rw [← hs, hcl, ha]
    · rename_i hcl
      rw [Except.ok.injEq, AreaResult.mk.injEq] at h
      obtain ⟨ha, hs, -⟩ := h
      rw [← hs, ← ha]
      exact cache_lookup_cons_self _ _ _

theorem face_areas_of_lookup (s : GridState) (cfg : AreaConfig)
    (a : List ℝ) (r : QuadRule)
    (hr : get_quadrature cfg.rule cfg.order = Except.ok r)
    (hcl : cache_lookup s.cache cfg = some a) :
    face_areas s cfg = Except.ok ⟨a, s, false⟩ := by
  unfold face_areas
  rw [hr, hcl]

theorem face_areas_preserves_entries (s : GridState) (cfg : AreaConfig)
    (a : List ℝ) (s1 : GridState) (b : Bool)
    (h : face_areas s cfg = Except.ok ⟨a, s1, b⟩) :
    ∀ k v, cache_lookup s.cache k = some v →
      cache_lookup s1.cache k = some v := by
  intro k v hk
  unfold face_areas at h
  split at h
  · simp at h
  · split at h
    · rw [Except.ok.injEq, AreaResult.mk.injEq] at h
      obtain ⟨-, hs, -⟩ := h
      rw [← hs]
      exact hk
    · rename_i hcl
      rw [Except.ok.injEq, AreaResult.mk.injEq] at h
      obtain ⟨-, hs, -⟩ := h
      rw [← hs]
      by_cases hkc : k = cfg
      · rw [hkc] at hk
        rw [hk] at hcl
        cases hcl
      · rw [cache_lookup_cons_ne _ _ _ _ (fun hc => hkc hc.symm)]
        exact hk

theorem face_areas_preserves_topology (s : GridState) (cfg : AreaConfig)
    (a : List ℝ) (s1 : GridState) (b : Bool)
    (h : face_areas s cfg = Except.ok ⟨a, s1, b⟩) :
    s1.topology = s.topology := by
  unfold face_areas at h
  split at h
  · simp at h
  · split at h
    · rw [Except.ok.injEq, AreaResult.mk.injEq] at h
      obtain ⟨-, hs, -⟩ := h
      rw [← hs]
    · rw [Except.ok.injEq, AreaResult.mk.injEq] at h
      obtain ⟨-, hs, -⟩ := h
      rw [← hs]

theorem face_areas_ok_of_supported (s : GridState) (cfg : AreaConfig)
    (hsup : supported cfg) :
    ∃ res, face_areas s cfg = Except.ok res := by
  obtain ⟨r, hr⟩ := hsup
  unfold face_areas
  rw [hr]
  cases hcl : cache_lookup s.cache cfg <;> simp [hcl]

theorem face_areas_computed_value (s : GridState) (cfg : AreaConfig)
    (a : List ℝ) (s1 : GridState)
    (h : face_areas s cfg = Except.ok ⟨a, s1, true⟩) :
    a = compute_face_areas s.topology cfg := by
  unfold face_areas at h
  split at h
  · simp at h
  · split at h
    · rw [Except.ok.injEq, AreaResult.mk.injEq] at h
      obtain ⟨-, -, hb⟩ := h
      cases hb
    · rw [Except.ok.injEq, AreaResult.mk.injEq] at h
      obtain ⟨ha, -, -⟩ := h
      rw [← ha]

theorem compute_face_areas_length (t : Topology) (cfg : AreaConfig) :
    (compute_face_areas t cfg).length = t.face_nodes.length := by
  simp [compute_face_areas]

/-- C5: requesting the same supported configuration twice serves the second
request from the cache — the identical array is returned, the state is
untouched and no recomputation happens — while requesting a different
configuration stores its own entry without disturbing the first one, which
remains served from the cache. -/
theorem face_area_cache_idempotent (s : GridState) (cfg cfg2 : AreaConfig)
    (hsup : supported cfg) (_hsup2 : supported cfg2) (_hne : cfg2 ≠ cfg) :
    ∀ a1 s1 b1, face_areas s cfg = Except.ok ⟨a1, s1, b1⟩ →
      face_areas s1 cfg = Except.ok ⟨a1, s1, false⟩ ∧
      ∀ a2 s2 b2, face_areas s1 cfg2 = Except.ok ⟨a2, s2, b2⟩ →
        cache_lookup s2.cache cfg2 = some a2 ∧
        cache_lookup s2.cache cfg = some a1 ∧
        face_areas s2 cfg = Except.ok ⟨a1, s2, false⟩ := by
  intro a1 s1 b1 h1
  obtain ⟨r, hr⟩ := hsup
  have hl1 : cache_lookup s1.cache cfg = some a1 :=
    face_areas_ok_lookup s cfg a1 s1 b1 h1
  refine ⟨face_areas_of_lookup s1 cfg a1 r hr hl1, ?_⟩
  intro a2 s2 b2 h2
  have hl2 : cache_lookup s2.cache cfg2 = some a2 :=
    face_areas_ok_lookup s1 cfg2 a2 s2 b2 h2
  have hl1' : cache_lookup s2.cache cfg = some a1 :=
    face_areas_preserves_entries s1 cfg2 a2 s2 b2 h2 cfg a1 hl1
  exact ⟨hl2, hl1', face_areas_of_lookup s2 cfg a1 r hr hl1'⟩

/-- Witness for C5: on an empty-cache grid, requesting (triangular, 4,
spherical) computes and stores the per-face array; the immediate second
request is served from the cache with `computed = false` and an unchanged
state. -/
theorem face_area_cache_idempotent_witness :
    supported ⟨QuadFamily.triangular, 4, true⟩ ∧
    supported ⟨QuadFamily.gaussian, 2, false⟩ ∧
    (⟨QuadFamily.gaussian, 2, false⟩ : AreaConfig) ≠
      ⟨QuadFamily.triangular, 4, true⟩ ∧
    face_areas
        ⟨⟨[], [], 0⟩, [(⟨QuadFamily.triangular, 4, true⟩, [])]⟩
        ⟨QuadFamily.triangular, 4, true⟩ =
      Except.ok ⟨[], ⟨⟨[], [], 0⟩,
        [(⟨QuadFamily.triangular, 4, true⟩, [])]⟩, false⟩ := by
  refine ⟨⟨⟨6⟩, rfl⟩, ⟨⟨2⟩, rfl⟩, by decide, ?_⟩
  exact ((face_area_cache_idempotent ⟨⟨[], [], 0⟩, []⟩
    ⟨QuadFamily.triangular, 4, true⟩ ⟨QuadFamily.gaussian, 2, false⟩
    ⟨⟨6⟩, rfl⟩ ⟨⟨2⟩, rfl⟩ (by decide)) []
    ⟨⟨[], [], 0⟩, [(⟨QuadFamily.triangular, 4, true⟩, [])]⟩ true rfl).1

/-- C9: a face-area request leaves the topology (node coordinates and face
connectivity) unchanged — only the cache may grow — the freshly computed
array is exactly the engine's pure function of topology and configuration
with one slot per face, and any later engine run observes the identical
topology state. -/
theorem compute_face_areas_pure (s : GridState) (cfg : AreaConfig)
    (hsup : supported cfg) :
    (∃ res, face_areas s cfg = Except.ok res) ∧
    ∀ a1 s1 b1, face_areas s cfg = Except.ok ⟨a1, s1, b1⟩ →
      s1.topology = s.topology ∧
      (b1 = true → a1 = compute_face_areas s.topology cfg ∧
        a1.length = s.topology.face_nodes.length) ∧
      ∀ cfg2, compute_face_areas s1.topology cfg2 =
        compute_face_areas s.topology cfg2 := by
  refine ⟨face_areas_ok_of_supported s cfg hsup, ?_⟩
  intro a1 s1 b1 h1
  have htop : s1.topology = s.topology :=
    face_areas_preserves_topology s cfg a1 s1 b1 h1
  refine ⟨htop, ?_, fun cfg2 => by rw [htop]⟩
  intro hb
  subst hb
  have hval : a1 = compute_face_areas s.topology cfg :=
    face_areas_computed_value s cfg a1 s1 h1
  exact ⟨hval, by rw [hval, compute_face_areas_length]⟩

/-- Witness for C9: on an empty-cache one-node grid, the first (gaussian, 3,
Cartesian) request computes, and the topology afterwards is the original
one. -/
theorem compute_face_areas_pure_witness :
    supported ⟨QuadFamily.gaussian, 3, false⟩ ∧
    (⟨⟨[P3.zero], [], 0⟩,
        [(⟨QuadFamily.gaussian, 3, false⟩, [])]⟩ : GridState).topology =
      (⟨⟨[P3.zero], [], 0⟩, []⟩ : GridState).topology := by
  refine ⟨⟨⟨3⟩, rfl⟩, ?_⟩
  exact ((compute_face_areas_pure ⟨⟨[P3.zero], [], 0⟩, []⟩
    ⟨QuadFamily.gaussian, 3, false⟩ ⟨⟨3⟩, rfl⟩).2 []
    ⟨⟨[P3.zero], [], 0⟩, [(⟨QuadFamily.gaussian, 3, false⟩, [])]⟩ true
    rfl).1

theorem fan_sum_eq_range (tri : P3 → P3 → P3 → ℝ) (p0 : P3)
    (rest : List P3) :
    fan_sum tri p0 rest =
      ∑ j ∈ Finset.range (rest.length - 1),
        tri p0 (rest.getD j P3.zero) (rest.getD (j + 1) P3.zero) := by
  induction rest with
  | nil => simp [fan_sum]
  | cons a tl ih =>
    cases tl with
    | nil => simp [fan_sum]
    | cons b tl2 =>
      rw [show fan_sum tri p0 (a :: b :: tl2) =
        tri p0 a b + fan_sum tri p0 (b :: tl2) from rfl, ih]
      simp only [List.length_cons, Nat.add_sub_cancel]
      rw [Finset.sum_range_succ']
      simp only [List.getD_cons_succ, List.getD_cons_zero]
      ring

theorem sum_shift_Icc (g : Nat → ℝ) (n : Nat) :
    ∑ j ∈ Finset.range n, g (j + 1) = ∑ i ∈ Finset.Icc 1 n, g i := by
  rw [← Nat.Ico_succ_right, Finset.sum_Ico_eq_sum_range,
    Nat.succ_sub_one]
  exact Finset.sum_congr rfl (fun i _ => by rw [Nat.add_comm])

theorem calculate_face_area_fan (tri : P3 → P3 → P3 → ℝ) (pts : List P3) :
    calculate_face_area tri pts =
      ∑ i ∈ Finset.Icc 1 (pts.length - 2),
        tri (pts.getD 0 P3.zero) (pts.getD i P3.zero)
          (pts.getD (i + 1) P3.zero) := by
  cases pts with
  | nil => simp [calculate_face_area]
  | cons p0 rest =>
    have hlen : (p0 :: rest).length - 2 = rest.length - 1 := by
      simp only [List.length_cons]
      omega
    calc calculate_face_area tri (p0 :: rest)
        = fan_sum tri p0 rest := rfl
      _ = ∑ j ∈ Finset.range (rest.length - 1),
            tri p0 (rest.getD j P3.zero) (rest.getD (j + 1) P3.zero) :=
          fan_sum_eq_range tri p0 rest
      _ = ∑ j ∈ Finset.range ((p0 :: rest).length - 2),
            (fun i => tri ((p0 :: rest).getD 0 P3.zero)
              ((p0 :: rest).getD i P3.zero)
              ((p0 :: rest).getD (i + 1) P3.zero)) (j + 1) := by
          rw [hlen]
          exact Finset.sum_congr rfl (fun j _ => by
            simp only [List.getD_cons_succ, List.getD_cons_zero])
      _ = ∑ i ∈ Finset.Icc 1 ((p0 :: rest).length - 2),
            tri ((p0 :: rest).getD 0 P3.zero) ((p0 :: rest).getD i P3.zero)
              ((p0 :: rest).getD (i + 1) P3.zero) :=
          sum_shift_Icc (fun i => tri ((p0 :: rest).getD 0 P3.zero)
            ((p0 :: rest).getD i P3.zero)
            ((p0 :: rest).getD (i + 1) P3.zero)) ((p0 :: rest).length - 2)

theorem triangle_contribution_degenerate (cfg : AreaConfig) (a b c : P3)
    (h : cross (vsub b a) (vsub c a) = P3.zero) :
    triangle_contribution cfg a b c = 0 := by
  unfold triangle_contribution
  cases hc : cfg.latlon with
  | false =>
    rw [if_neg (by simp)]
    have hn : norm3 (cross (vsub b a) (vsub c a)) = 0 := by
      rw [h]
      simp [norm3, P3.zero]
    unfold triangle_area
    rw [hn, mul_zero]
  | true =>
    rw [if_pos rfl]
    have hkey : dot a (cross b c) = dot a (cross (vsub b a) (vsub c a)) := by
      simp only [dot, cross, vsub]
      ring
    have hnum : dot a (cross b c) = 0 := by
      rw [hkey, h]
      simp [dot, P3.zero]
    unfold spherical_triangle_area
    rw [hnum, zero_div, Real.arctan_zero, mul_zero]

theorem sum_erase_of_zero (s : Finset Nat) (g : Nat → ℝ) (i : Nat)
    (h : g i = 0) :
    ∑ j ∈ s, g j = ∑ j ∈ s.erase i, g j :=
  (Finset.sum_erase s h).symm

theorem compute_face_areas_getD (t : Topology) (cfg : AreaConfig) (f : Nat)
    (hf : f < t.face_nodes.length) :
    (compute_face_areas t cfg).getD f 0 =
      calculate_face_area (triangle_contribution cfg) (face_points t f) := by
  unfold compute_face_areas
  rw [getD_map_of_lt _ _ f (by simpa using hf) 0]
  congr 1
  rw [List.getD_eq_getElem?_getD,
    List.getElem?_eq_getElem (by simpa using hf)]
  simp

/-- C1: for every face, the engine computes the face's area as the fan sum
from the face's first listed vertex over the k-2 triangles (v0, vi, vi+1),
i = 1..k-2, where k ≥ 3 is the face's non-sentinel vertex count (so the fan
is nonempty); a degenerate fan triangle (edge vectors with vanishing cross
product, e.g. collinear vertices) contributes exactly zero, the face sum
reducing to the sum over the remaining triangles, with no error raised. -/
theorem fan_triangulation_face_area (t : Topology) (cfg : AreaConfig)
    (f : Nat) (hf : f < t.face_nodes.length)
    (hk : 3 ≤ (face_points t f).length) :
    (Finset.Icc 1 ((face_points t f).length - 2)).Nonempty ∧
    ((compute_face_areas t cfg).getD f 0 =
      ∑ i ∈ Finset.Icc 1 ((face_points t f).length - 2),
        triangle_contribution cfg ((face_points t f).getD 0 P3.zero)
          ((face_points t f).getD i P3.zero)
          ((face_points t f).getD (i + 1) P3.zero)) ∧
    ∀ i ∈ Finset.Icc 1 ((face_points t f).length - 2),
      cross (vsub ((face_points t f).getD i P3.zero)
            ((face_points t f).getD 0 P3.zero))
          (vsub ((face_points t f).getD (i + 1) P3.zero)
            ((face_points t f).getD 0 P3.zero)) = P3.zero →
        triangle_contribution cfg ((face_points t f).getD 0 P3.zero)
            ((face_points t f).getD i P3.zero)
            ((face_points t f).getD (i + 1) P3.zero) = 0 ∧
        (compute_face_areas t cfg).getD f 0 =
          ∑ j ∈ (Finset.Icc 1 ((face_points t f).length - 2)).erase i,
            triangle_contribution cfg ((face_points t f).getD 0 P3.zero)
              ((face_points t f).getD j P3.zero)
              ((face_points t f).getD (j + 1) P3.zero) := by
  have harea : (compute_face_areas t cfg).getD f 0 =
      ∑ i ∈ Finset.Icc 1 ((face_points t f).length - 2),
        triangle_contribution cfg ((face_points t f).getD 0 P3.zero)
          ((face_points t f).getD i P3.zero)
          ((face_points t f).getD (i + 1) P3.zero) :=
    (compute_face_areas_getD t cfg f hf).trans
      (calculate_face_area_fan (triangle_contribution cfg) (face_points t f))
  refine ⟨?_, harea, ?_⟩
  · rw [Finset.nonempty_Icc]
    omega
  · intro i _ hdeg
    have hzero : triangle_contribution cfg
        ((face_points t f).getD 0 P3.zero) ((face_points t f).getD i P3.zero)
        ((face_points t f).getD (i + 1) P3.zero) = 0 :=
      triangle_contribution_degenerate cfg _ _ _ hdeg
    refine ⟨hzero, ?_⟩
    rw [harea]
    exact sum_erase_of_zero _
      (fun j => triangle_contribution cfg ((face_points t f).getD 0 P3.zero)
        ((face_points t f).getD j P3.zero)
        ((face_points t f).getD (j + 1) P3.zero)) i hzero

/-- Witness for C1: a quadrilateral face (k = 4) yields a nonempty fan of
k - 2 = 2 triangles. -/
theorem fan_triangulation_face_area_witness :
    0 < fan_example_topology.face_nodes.length ∧
    3 ≤ (face_points fan_example_topology 0).length ∧
    (Finset.Icc 1 ((face_points fan_example_topology 0).length - 2)).Nonempty
    := by
  have hk : 3 ≤ (face_points fan_example_topology 0).length := by decide
  exact ⟨by decide, hk, (fan_triangulation_face_area fan_example_topology
    ⟨QuadFamily.triangular, 4, false⟩ 0 (by decide) hk).1⟩

end UxVerify
